import Mathlib

/-
  Verification development for the rusty-power-meter repository.

  The Rust sources are embedded shallowly:
  pure functions become Lean functions, the SQLite layer becomes explicit
  state passing over a list of rows, machine integers become Nat or Int
  with explicit bounds where the code checks them, f64 arithmetic is
  modelled over the rationals, and fallible code returns Except.
-/

/-- Decidable equality for Except values, used to evaluate the embedded
functions on concrete inputs. -/
instance {ε α : Type} [DecidableEq ε] [DecidableEq α] : DecidableEq (Except ε α) := fun x y =>
  match x, y with
  | .ok a, .ok b =>
    if h : a = b then .isTrue (by rw [h]) else .isFalse (fun hc => h (Except.ok.inj hc))
  | .error a, .error b =>
    if h : a = b then .isTrue (by rw [h]) else .isFalse (fun hc => h (Except.error.inj hc))
  | .ok _, .error _ => .isFalse (fun hc => Except.noConfusion hc)
  | .error _, .ok _ => .isFalse (fun hc => Except.noConfusion hc)

namespace RustyPowerMeter

/- ===================== src/obis_code.rs ===================== -/

/-- Error type from src/obis_code.rs, enum ObisParseError. -/
inductive ObisParseError
  | Overflow
  | UnexpectedSeparator
  | InvalidLength
  | InvalidLastByte
deriving DecidableEq, Repr

/-- Struct ObisCode from src/obis_code.rs: the inner field is the array
of the 5 significant octets; octets are modelled as Nat values below 256. -/
structure ObisCode where
  inner : List Nat
deriving DecidableEq, Repr

/-- ObisCode::try_from_octet_str (src/obis_code.rs lines 111-126).
The length-6 check is live; the check of the last byte against 255
(lines 115-117) is commented out in the source, so only the first five
octets are copied into the code and the last octet is never inspected. -/
def ObisCode.try_from_octet_str (value : List Nat) : Except ObisParseError ObisCode :=
  if value.length = 6 then
    .ok ⟨value.take 5⟩
  else
    .error .InvalidLength

/-- The Display implementation for ObisCode (src/obis_code.rs lines 15-23):
writes inner[0]-inner[1]:inner[2].inner[3].inner[4]. -/
def ObisCode.toText (c : ObisCode) : String :=
  toString (c.inner.getD 0 0) ++ "-" ++ toString (c.inner.getD 1 0) ++ ":" ++
  toString (c.inner.getD 2 0) ++ "." ++ toString (c.inner.getD 3 0) ++ "." ++
  toString (c.inner.getD 4 0)

/-- Canonical textual form of five octets, following the wording of the
spec (section 8): the string a-b:c.d.e built from the given components.
This is the spec-side definition used to state the round-trip claim. -/
def canonical_text (a b c d e : Nat) : String :=
  toString a ++ "-" ++ toString b ++ ":" ++
  toString c ++ "." ++ toString d ++ "." ++
  toString e

/-- The separator table from ObisCode::try_from_str: b"-:..". -/
def SEPARATORS : List Char := ['-', ':', '.', '.']

/-- The while loop of ObisCode::try_from_str (src/obis_code.rs lines 80-109),
written as structural recursion over the remaining characters.  State:
vals is the 5-element accumulator array, valIdx the current component
index.  A digit multiplies the current component by 10 and adds the digit,
with the u8 checked_mul and checked_add overflow checks made explicit
(error when the result would exceed 255); the character SEPARATORS[valIdx]
advances valIdx when valIdx is in bounds; anything else is an
UnexpectedSeparator error. -/
def try_from_str_loop : List Char → List Nat → Nat → Except ObisParseError ObisCode
  | [], vals, _ => .ok ⟨vals⟩
  | c :: rest, vals, valIdx =>
    if c.isDigit then
      let n := c.toNat - 48
      let v := vals.getD valIdx 0
      if 255 < v * 10 then
        .error .Overflow
      else if 255 < v * 10 + n then
        .error .Overflow
      else
        try_from_str_loop rest (vals.set valIdx (v * 10 + n)) valIdx
    else if valIdx < SEPARATORS.length ∧ SEPARATORS.getD valIdx ' ' = c then
      try_from_str_loop rest vals (valIdx + 1)
    else
      .error .UnexpectedSeparator

/-- ObisCode::try_from_str (src/obis_code.rs lines 80-109): run the loop on
the bytes of the string with a zeroed accumulator.  The runtime TryFrom
for str delegates to this function. -/
def ObisCode.try_from_str (s : String) : Except ObisParseError ObisCode :=
  try_from_str_loop s.data [0, 0, 0, 0, 0] 0

/- ===================== src/unit.rs ===================== -/

/-- Enum Unit from src/unit.rs. -/
inductive Unit
  | Watt
  | WattHour
  | Volt
  | Ampere
  | Degree
  | Hertz
deriving DecidableEq, Repr

/-- Unit::from_u8 (src/unit.rs lines 51-61). -/
def Unit.from_u8 (value : Nat) : Option Unit :=
  match value with
  | 8 => some .Degree
  | 27 => some .Watt
  | 30 => some .WattHour
  | 33 => some .Ampere
  | 35 => some .Volt
  | 44 => some .Hertz
  | _ => none

/- ===================== sml_rs data (external crate), as consumed
     by src/meter_reading.rs ===================== -/

/-- The sml_rs runtime value type (sml_rs::parser::common::Value), the
tagged union matched by MeterReading::parse.  The parse code only
distinguishes the U64 and I32 constructors from everything else; the
other constructors here stand for the remaining runtime types. -/
inductive SmlValue
  | bool (b : Bool)
  | bytes (bs : List Nat)
  | i8 (v : Int)
  | i32 (v : Int)
  | i64 (v : Int)
  | u8 (v : Nat)
  | u32 (v : Nat)
  | u64 (v : Nat)
deriving DecidableEq, Repr

/-- sml_rs::parser::common::Time: a seconds counter of the meter. -/
inductive SmlTime
  | secIndex (secs : Nat)
deriving DecidableEq, Repr

/-- One entry of a GetListResponse value list, with the fields read by
MeterReading::parse: obj_name (octet string), value, unit (u8 code),
scaler (i8 exponent), val_time. -/
structure ListEntry where
  obj_name : List Nat
  value : SmlValue
  unit : Option Nat
  scaler : Option Int
  val_time : Option SmlTime
deriving DecidableEq, Repr

/-- The message bodies distinguished by MeterReading::parse: a
GetListResponse carrying a value list, or any other body kind. -/
inductive MessageBody
  | openResponse
  | getListResponse (val_list : List ListEntry)
  | closeResponse
  | otherBody
deriving DecidableEq, Repr

/-- One top-level SML message (only the body is consumed). -/
structure Message where
  message_body : MessageBody
deriving DecidableEq, Repr

/-- sml_rs::parser::complete::File: the decoded record set. -/
structure SmlFile where
  messages : List Message
deriving DecidableEq, Repr

/- ===================== src/meter_reading.rs ===================== -/

/-- Struct MeterReading (src/meter_reading.rs lines 11-26).  The f64
meter_reading field is modelled over the rationals. -/
structure MeterReading where
  meter_time : Option Nat
  meter_reading : Option ℚ
  meter_reading_unit : Option Unit
  line_one : Option Int
  line_one_unit : Option Unit
  line_two : Option Int
  line_two_unit : Option Unit
  line_three : Option Int
  line_three_unit : Option Unit
deriving DecidableEq, Repr

/-- Ten to a natural power, as a rational. -/
def pow10 (n : Nat) : ℚ := ((10 ^ n : ℕ) : ℚ)

/-- The model of 10f64.powi(n) (used at src/meter_reading.rs line 80):
ten raised to an arbitrary integer power, a negative exponent giving the
reciprocal.  Exact rational arithmetic stands in for f64. -/
def powi10 (n : Int) : ℚ :=
  if 0 ≤ n then pow10 n.toNat else (pow10 (-n).toNat)⁻¹

/-- The all-None initial value built at src/meter_reading.rs lines 46-56. -/
def MeterReading.empty : MeterReading :=
  ⟨none, none, none, none, none, none, none, none, none⟩

/-- const OBIS_TOTAL_COUNT (src/meter_reading.rs line 28). -/
def OBIS_TOTAL_COUNT : ObisCode := ⟨[1, 0, 1, 8, 0]⟩

/-- const OBIS_LINE_ONE (src/meter_reading.rs line 29). -/
def OBIS_LINE_ONE : ObisCode := ⟨[1, 0, 36, 7, 0]⟩

/-- const OBIS_LINE_TWO (src/meter_reading.rs line 30). -/
def OBIS_LINE_TWO : ObisCode := ⟨[1, 0, 56, 7, 0]⟩

/-- const OBIS_LINE_THREE (src/meter_reading.rs line 31). -/
def OBIS_LINE_THREE : ObisCode := ⟨[1, 0, 76, 7, 0]⟩

/-- The body of the for loop over get_list_response.val_list
(src/meter_reading.rs lines 58-125), as a fold step: one entry updates
the accumulated MeterReading.  A failing obis-code parse skips the entry;
the four known codes each require a specific runtime value type and skip
the entry otherwise; the scaler is applied to the total count as
value / 10 ^ (-scaler); unknown codes are discarded. -/
def parse_entry (mv : MeterReading) (entry : ListEntry) : MeterReading :=
  match ObisCode.try_from_octet_str entry.obj_name with
  | .error _ => mv
  | .ok obis_code =>
    let unit := entry.unit.bind Unit.from_u8
    if obis_code = OBIS_TOTAL_COUNT then
      match entry.value with
      | .u64 value =>
        let value : ℚ :=
          match entry.scaler with
          | some scaler => (value : ℚ) / powi10 (-scaler)
          | none => (value : ℚ)
        { mv with
          meter_reading := some value
          meter_reading_unit := unit
          meter_time :=
            match entry.val_time with
            | some (.secIndex secs) => some secs
            | _ => none }
      | _ => mv
    else if obis_code = OBIS_LINE_ONE then
      match entry.value with
      | .i32 value => { mv with line_one := some value, line_one_unit := unit }
      | _ => mv
    else if obis_code = OBIS_LINE_TWO then
      match entry.value with
      | .i32 value => { mv with line_two := some value, line_two_unit := unit }
      | _ => mv
    else if obis_code = OBIS_LINE_THREE then
      match entry.value with
      | .i32 value => { mv with line_three := some value, line_three_unit := unit }
      | _ => mv
    else
      mv

/-- MeterReading::parse (src/meter_reading.rs lines 34-128): requires
exactly three top-level messages, requires the second message to be a
GetListResponse, and then folds parse_entry over the value list starting
from the all-None reading.  The two bail sites are the only error
returns. -/
def MeterReading.parse (sml_file : SmlFile) : Except String MeterReading :=
  match sml_file.messages with
  | [_m1, m2, _m3] =>
    match m2.message_body with
    | .getListResponse get_list_response =>
      .ok (get_list_response.foldl parse_entry MeterReading.empty)
    | _ => .error "Unexpected message type"
  | _ => .error "Invalid number of messages"

/- ===================== latest-reading cache
     (crossbeam AtomicCell, as used by src/core_loop.rs line 66 and
     src/server/now.rs line 10) ===================== -/

/-- CoreLoop publishing a reading: latest_reading.store(Some(reading))
unconditionally replaces the slot contents. -/
def cache_publish {α : Type} (_slot : Option α) (a : α) : Option α :=
  some a

/-- The /now handler consuming the slot: AtomicCell::take swaps None into
the slot and returns the previous contents; the first component is the
returned value, the second the slot afterwards. -/
def cache_take {α : Type} (slot : Option α) : Option α × Option α :=
  (slot, none)

/- ===================== src/database.rs ===================== -/

/-- The SQLite runtime value of one cell, as materialised by the sqlite
crate when a row is read (sqlite::Value); floats are modelled over the
rationals, text and blob cells only by their tag. -/
inductive SqlValue
  | int (v : Int)
  | float (q : ℚ)
  | text (s : String)
  | binary (bs : List Nat)
  | null
deriving DecidableEq, Repr

/-- The sqlite crate column type tag (sqlite::Type). -/
inductive SqlType
  | integer
  | float
  | text
  | binary
  | null
deriving DecidableEq, Repr

/-- Runtime type of a cell value (sqlite3_column_type). -/
def SqlValue.runtimeType : SqlValue → SqlType
  | .int _ => .integer
  | .float _ => .float
  | .text _ => .text
  | .binary _ => .binary
  | .null => .null

/-- Reading a cell as a 64-bit integer (row.read with i64), with the
numeric coercion SQLite applies to a REAL cell (truncation toward zero);
a NULL, text or blob cell cannot be read as a plain i64 (the crate read
panics there), modelled as none. -/
def read_i64 : SqlValue → Option Int
  | .int v => some v
  | .float q => some (Int.tdiv q.num (Int.ofNat q.den))
  | _ => none

/-- Reading a cell as f64 (row.read with f64), with the numeric coercion
of an INTEGER cell to floating point; other cells cannot be read,
modelled as none. -/
def read_f64 : SqlValue → Option ℚ
  | .int v => some (v : ℚ)
  | .float q => some q
  | _ => none

/-- The Rust cast i64 as u32: truncation to the low 32 bits. -/
def cast_u32 (v : Int) : Nat :=
  (v % (2 ^ 32 : Int)).toNat

/-- The Rust cast i64 as i32: two's-complement truncation to 32 bits. -/
def cast_i32 (v : Int) : Int :=
  (v + 2 ^ 31) % (2 ^ 32 : Int) - 2 ^ 31

/-- One bound parameter row of the INSERT statement in
Database::insert_reading (src/database.rs lines 63-69): the six bound
values in column order of the Readings table.  A none stands for binding
SQL NULL. -/
structure BoundRow where
  meterTime : Option Int
  timestamp : Int
  meterReading : Option ℚ
  lineOne : Option Int
  lineTwo : Option Int
  lineThree : Option Int
deriving DecidableEq, Repr

/-- The sqlite crate error value: the raw SQLite result code. -/
structure SqliteError where
  code : Option Int
deriving DecidableEq, Repr

/-- The Rust unit value returned by a successful insert. -/
inductive RustUnit
  | unit
deriving DecidableEq, Repr

/-- The SQLite primary result code SQLITE_CONSTRAINT, the value the code
under src/database.rs line 73 compares against.  SQLite reports every
constraint violation, the UNIQUE index on Timestamp as well as the
NOT NULL constraint on MeterReading, under this one primary code. -/
def UNIQUE_CONSTRAINT_ERROR : Int := 19

/-- The database state: the rows of the Readings table in insertion
order.  The schema (Database::init, src/database.rs lines 30-40) declares
MeterTime nullable, Timestamp NOT NULL with a UNIQUE index, MeterReading
REAL NOT NULL, and the three line columns nullable. -/
abbrev DbState := List BoundRow

/-- Stepping the prepared INSERT (statement.next() at src/database.rs
line 71) against the Readings schema: binding NULL for the NOT NULL
MeterReading column, or reusing a Timestamp already present under the
UNIQUE index, fails with SQLITE_CONSTRAINT (code 19); otherwise the row
is appended. -/
def stepInsert (db : DbState) (r : BoundRow) : Except SqliteError DbState :=
  if r.meterReading = none then
    .error ⟨some UNIQUE_CONSTRAINT_ERROR⟩
  else if db.any (fun q => q.timestamp = r.timestamp) then
    .error ⟨some UNIQUE_CONSTRAINT_ERROR⟩
  else
    .ok (db ++ [r])

/-- The error handling of Database::insert_reading (src/database.rs
lines 71-83): a step error whose code is 19 is swallowed with a warning
and reported as success with the state unchanged; every other step error
propagates; a successful step returns the new state. -/
def handle_step (db : DbState) (step : Except SqliteError DbState) :
    Except SqliteError RustUnit × DbState :=
  match step with
  | .ok db2 => (.ok RustUnit.unit, db2)
  | .error e =>
    if e.code = some UNIQUE_CONSTRAINT_ERROR then
      (.ok RustUnit.unit, db)
    else
      (.error e, db)

/-- The row bound by Database::insert_reading from a MeterReading and the
wall-clock seconds value: meter_time as i64, the timestamp, the f64
meter_reading, and the three line values as i64. -/
def bindRow (timestamp : Int) (reading : MeterReading) : BoundRow :=
  { meterTime := reading.meter_time.map (fun x => (x : Int))
    timestamp := timestamp
    meterReading := reading.meter_reading
    lineOne := reading.line_one
    lineTwo := reading.line_two
    lineThree := reading.line_three }

/-- Database::insert_reading (src/database.rs lines 59-84).  The
wall-clock seconds value computed from SystemTime::now is passed in
explicitly as the timestamp parameter. -/
def insert_reading (db : DbState) (timestamp : Int) (reading : MeterReading) :
    Except SqliteError RustUnit × DbState :=
  handle_step db (stepInsert db (bindRow timestamp reading))

/-- The stored row as a list of cells in the column order of the SELECT
of Database::list_readings: MeterTime, Timestamp, MeterReading, LineOne,
LineTwo, LineThree. -/
def storedCells (r : BoundRow) : List SqlValue :=
  [ match r.meterTime with | some v => .int v | none => .null,
    .int r.timestamp,
    match r.meterReading with | some q => .float q | none => .null,
    match r.lineOne with | some v => .int v | none => .null,
    match r.lineTwo with | some v => .int v | none => .null,
    match r.lineThree with | some v => .int v | none => .null ]

/-- The row-mapping closure of Database::list_readings (src/database.rs
lines 94-104): the column indices read are those written in the source,
0 (as i64, cast to u32) for meter_time, 0 again (as f64) for
meter_reading, 1 for line_one, 2 for line_two and 3 for line_three, with
the units hardcoded.  A read that cannot produce the requested Rust type
makes the crate panic, modelled as none. -/
def rowToMeterReading (row : List SqlValue) : Option MeterReading := do
  let mt ← read_i64 (row.getD 0 .null)
  let mr ← read_f64 (row.getD 0 .null)
  let l1 ← read_i64 (row.getD 1 .null)
  let l2 ← read_i64 (row.getD 2 .null)
  let l3 ← read_i64 (row.getD 3 .null)
  some
    { meter_time := some (cast_u32 mt)
      meter_reading := some mr
      meter_reading_unit := some .WattHour
      line_one := some (cast_i32 l1)
      line_one_unit := some .Watt
      line_two := some (cast_i32 l2)
      line_two_unit := some .Watt
      line_three := some (cast_i32 l3)
      line_three_unit := some .Watt }

/-- Database::list_readings (src/database.rs lines 86-106): the iterator
over all stored rows in storage order, each row mapped through the
closure above; a row-level read error becomes an error element. -/
def list_readings (db : DbState) : List (Except String (Option MeterReading)) :=
  db.map (fun r => .ok (rowToMeterReading (storedCells r)))

/- ===================== ReadonlyDatabase::query ===================== -/

/-- A prepared read-only statement together with the row sequence its
execution produces, the external SQLite input to ReadonlyDatabase::query:
the column names known at prepare time and the produced rows in order. -/
structure PreparedQuery where
  column_names : List String
  rows : List (List SqlValue)
deriving DecidableEq, Repr

/-- The typed cell of a QueryResult (enum Value in src/database.rs
lines 124-128). -/
inductive DbValue
  | I64 (v : Int)
  | F64 (q : ℚ)
deriving DecidableEq, Repr

/-- Struct QueryResult (src/database.rs lines 139-145).  The took_ms
field measures wall-clock time and is not modelled. -/
structure QueryResult where
  columns : List String
  rows_count : Nat
  rows : List (List (Option DbValue))
deriving DecidableEq, Repr

/-- The column types read back after the first execution step
(src/database.rs lines 173-177): sqlite3_column_type reports the runtime
type of the current row's cell, and NULL when the statement produced no
row. -/
def column_types (q : PreparedQuery) : List SqlType :=
  (List.range q.column_names.length).map
    (fun i => ((q.rows.headD []).getD i .null).runtimeType)

/-- Decoding one cell by the column type determined up front
(src/database.rs lines 184-201): an Integer column is read as i64, a
Float column as f64, a Null column yields None without reading the cell,
and any other column type aborts the whole query (the bail at line 196).
A type-mismatched read is the crate panic, distinguished as its own
error string. -/
def decodeCell (t : SqlType) (v : SqlValue) : Except String (Option DbValue) :=
  match t with
  | .integer =>
    match read_i64 v with
    | some n => .ok (some (.I64 n))
    | none => .error "panic: cell cannot be read as i64"
  | .float =>
    match read_f64 v with
    | some q => .ok (some (.F64 q))
    | none => .error "panic: cell cannot be read as f64"
  | .null => .ok none
  | _ => .error "Unexpected column type"

/-- Decoding one produced row cell by cell over the column indices. -/
def decodeRow (ts : List SqlType) (row : List SqlValue) :
    Except String (List (Option DbValue)) :=
  (List.range ts.length).mapM (fun i => decodeCell (ts.getD i .null) (row.getD i .null))

/-- ReadonlyDatabase::query (src/database.rs lines 163-215).  The initial
statement.next() at line 171 executes the statement and consumes its
first produced row; the column types are then read back; the subsequent
statement.into_iter() loop continues stepping from the current position,
so it yields only the rows after the first one.  Each remaining row is
decoded by the up-front column types. -/
def query (q : PreparedQuery) : Except String QueryResult :=
  let ts := column_types q
  match (q.rows.drop 1).mapM (decodeRow ts) with
  | .error e => .error e
  | .ok rows =>
    .ok { columns := q.column_names, rows_count := rows.length, rows := rows }

/- ===================== theorems ===================== -/

/-- Any character that is neither an ASCII digit nor one of the separator
characters makes the parse loop fail, whatever its state, and the error
kind is UnexpectedSeparator or (when a component overflows first)
Overflow. -/
theorem try_from_str_loop_badchar (l : List Char) :
    ∀ (vals : List Nat) (valIdx : Nat),
    (∃ c, c ∈ l ∧ ¬(c.isDigit = true ∨ c ∈ SEPARATORS)) →
    ∃ e, try_from_str_loop l vals valIdx = Except.error e ∧
      (e = ObisParseError.UnexpectedSeparator ∨ e = ObisParseError.Overflow) := by
  induction l with
  | nil =>
    intro vals valIdx h
    obtain ⟨c, hc, _⟩ := h
    exact absurd hc (List.not_mem_nil c)
  | cons c rest ih =>
    intro vals valIdx h
    obtain ⟨d, hd, hbad⟩ := h
    rw [try_from_str_loop]
    by_cases hdig : c.isDigit = true
    · rw [if_pos hdig]
      by_cases h1 : 255 < vals.getD valIdx 0 * 10
      · rw [if_pos h1]
        exact ⟨_, rfl, Or.inr rfl⟩
      · rw [if_neg h1]
        by_cases h2 : 255 < vals.getD valIdx 0 * 10 + (c.toNat - 48)
        · rw [if_pos h2]
          exact ⟨_, rfl, Or.inr rfl⟩
        · rw [if_neg h2]
          apply ih
          refine ⟨d, ?_, hbad⟩
          rcases List.mem_cons.mp hd with h | h
          · exact absurd (Or.inl (h ▸ hdig)) hbad
          · exact h
    · rw [if_neg hdig]
      by_cases hsep : valIdx < SEPARATORS.length ∧ SEPARATORS.getD valIdx ' ' = c
      · rw [if_pos hsep]
        apply ih
        refine ⟨d, ?_, hbad⟩
        rcases List.mem_cons.mp hd with h | h
        · exfalso
          obtain ⟨hlt, heq⟩ := hsep
          subst h
          have hmem : d ∈ SEPARATORS := by
            rw [← heq]
            match valIdx, hlt with
            | 0, _ => decide
            | 1, _ => decide
            | 2, _ => decide
            | 3, _ => decide
            | n + 4, hn => exact absurd hn (by simp [SEPARATORS])
          exact hbad (Or.inr hmem)
        · exact h
      · rw [if_neg hsep]
        exact ⟨_, rfl, Or.inl rfl⟩

/-- A run of digits whose decimal value exceeds 255 drives the parse loop
into the Overflow error while it is still filling the first pending
component. -/
theorem try_from_str_loop_overflow (l : List Char) :
    ∀ (v : Nat) (rest : List Nat),
    (∀ c ∈ l, c.isDigit = true) → v ≤ 255 →
    255 < l.foldl (fun a c => 10 * a + (c.toNat - 48)) v →
    try_from_str_loop l (v :: rest) 0 = Except.error ObisParseError.Overflow := by
  induction l with
  | nil =>
    intro v rest _ hle hgt
    simp only [List.foldl_nil] at hgt
    omega
  | cons c t ih =>
    intro v rest hdig hle hgt
    rw [try_from_str_loop]
    rw [if_pos (hdig c (List.mem_cons_self c t))]
    simp only [List.getD_cons_zero, List.set_cons_zero]
    by_cases h1 : 255 < v * 10
    · rw [if_pos h1]
    · rw [if_neg h1]
      by_cases h2 : 255 < v * 10 + (c.toNat - 48)
      · rw [if_pos h2]
      · rw [if_neg h2]
        simp only [List.foldl_cons] at hgt
        have hcomm : v * 10 + (c.toNat - 48) = 10 * v + (c.toNat - 48) := by ring
        rw [hcomm]
        exact ih (10 * v + (c.toNat - 48)) rest (fun d hd => hdig d (List.mem_cons_of_mem c hd))
          (by omega) hgt

/-- C8: for every valid 6-element identifier byte sequence, constructing a
StandardCode from the bytes and rendering it as text yields the canonical
textual form built from the first five octets: the round-trip
to_text(from_bytes(x)) equals canonical_text(x). -/
theorem C8_standard_code_round_trip (l : List Nat)
    (h6 : l.length = 6) (_hbyte : ∀ b ∈ l, b < 256) :
    ∃ c, ObisCode.try_from_octet_str l = Except.ok c ∧
      c.toText = canonical_text (l.getD 0 0) (l.getD 1 0) (l.getD 2 0)
        (l.getD 3 0) (l.getD 4 0) := by
  match l, h6 with
  | [a, b, c, d, e, f], _ =>
    exact ⟨⟨[a, b, c, d, e]⟩, rfl, rfl⟩

/-- Witness for C8 at the total-energy identifier byte sequence. -/
theorem C8_standard_code_round_trip_witness :
    ∃ c, ObisCode.try_from_octet_str [1, 0, 1, 8, 0, 255] = Except.ok c ∧
      c.toText = canonical_text 1 0 1 8 0 :=
  C8_standard_code_round_trip [1, 0, 1, 8, 0, 255] (by decide) (by decide)

/-- C9 counterexample: the string 1-2 is not of the textual form
a-b:c.d.e (it is shorter than the four separators alone), yet runtime
construction succeeds on it, with the missing components read as zero.
This refutes the part of the claim stating that only well-formed strings
of the full textual form succeed. -/
theorem C9_counterexample_short_string_accepted :
    ObisCode.try_from_str "1-2" = Except.ok ⟨[1, 2, 0, 0, 0]⟩ ∧
    ¬ ∃ a b c d e : Nat, "1-2" = canonical_text a b c d e := by
  constructor
  · decide
  · rintro ⟨a, b, c, d, e, h⟩
    have hlen := congrArg String.length h
    simp only [canonical_text, String.length_append] at hlen
    have h3 : ("1-2" : String).length = 3 := rfl
    have h1 : ("-" : String).length = 1 := rfl
    have h2 : (":" : String).length = 1 := rfl
    have h4 : ("." : String).length = 1 := rfl
    rw [h3, h1, h2, h4] at hlen
    omega

/-- C9 as amended: a string containing a character that is neither a
digit nor a separator character fails with UnexpectedSeparator or, when a
component had already overflowed, Overflow (proved for every string and
every loop state); an all-digit string whose decimal value exceeds 255
fails with Overflow (proved for every such string); concretely, the
wrong separator in 1-2:3.4:5 yields UnexpectedSeparator and the
oversized component in 1-300 yields Overflow; but success is not limited
to well-formed strings of the full textual form a-b:c.d.e: the empty
string and the truncated string 1-2 both succeed, with the missing
components read as zero. -/
theorem C9_amended_error_kinds :
    (∀ (l : List Char) (vals : List Nat) (valIdx : Nat),
      (∃ c, c ∈ l ∧ ¬(c.isDigit = true ∨ c ∈ SEPARATORS)) →
      ∃ e, try_from_str_loop l vals valIdx = Except.error e ∧
        (e = ObisParseError.UnexpectedSeparator ∨ e = ObisParseError.Overflow)) ∧
    (∀ l : List Char, (∀ c ∈ l, c.isDigit = true) →
      255 < l.foldl (fun a c => 10 * a + (c.toNat - 48)) 0 →
      ObisCode.try_from_str ⟨l⟩ = Except.error ObisParseError.Overflow) ∧
    ObisCode.try_from_str "1-2:3.4:5" = Except.error ObisParseError.UnexpectedSeparator ∧
    ObisCode.try_from_str "1-300" = Except.error ObisParseError.Overflow ∧
    ObisCode.try_from_str "" = Except.ok ⟨[0, 0, 0, 0, 0]⟩ ∧
    ObisCode.try_from_str "1-2" = Except.ok ⟨[1, 2, 0, 0, 0]⟩ := by
  refine ⟨try_from_str_loop_badchar, ?_, by decide, by decide, by decide, by decide⟩
  intro l hdig hgt
  exact try_from_str_loop_overflow l 0 [0, 0, 0, 0] hdig (by omega) hgt

/-- Witness for C9 as amended: a bad character yields an error of the
stated kinds, and an all-digit overflowing string yields Overflow. -/
theorem C9_amended_error_kinds_witness :
    (∃ e, try_from_str_loop "1x".data [0, 0, 0, 0, 0] 0 = Except.error e ∧
      (e = ObisParseError.UnexpectedSeparator ∨ e = ObisParseError.Overflow)) ∧
    ObisCode.try_from_str ⟨"300".data⟩ = Except.error ObisParseError.Overflow :=
  ⟨C9_amended_error_kinds.1 "1x".data [0, 0, 0, 0, 0] 0 ⟨'x', by decide, by decide⟩,
   C9_amended_error_kinds.2.1 "300".data (by decide) (by decide)⟩

/-- C10: construction from a raw byte sequence fails, with InvalidLength,
exactly when the length is not 6; every length-6 sequence succeeds
whatever its final octet; the InvalidLastByte error kind is never
returned; and two length-6 sequences agreeing on their first five octets
construct equal codes. -/
theorem C10_octet_construction :
    (∀ l : List Nat, l.length ≠ 6 →
      ObisCode.try_from_octet_str l = Except.error ObisParseError.InvalidLength) ∧
    (∀ l : List Nat, l.length = 6 → ∃ c, ObisCode.try_from_octet_str l = Except.ok c) ∧
    (∀ l : List Nat, ObisCode.try_from_octet_str l ≠ Except.error ObisParseError.InvalidLastByte) ∧
    (∀ l1 l2 : List Nat, l1.length = 6 → l2.length = 6 → l1.take 5 = l2.take 5 →
      ObisCode.try_from_octet_str l1 = ObisCode.try_from_octet_str l2) := by
  refine ⟨?_, ?_, ?_, ?_⟩
  · intro l h
    unfold ObisCode.try_from_octet_str
    rw [if_neg h]
  · intro l h
    unfold ObisCode.try_from_octet_str
    rw [if_pos h]
    exact ⟨_, rfl⟩
  · intro l
    unfold ObisCode.try_from_octet_str
    by_cases h : l.length = 6
    · rw [if_pos h]
      intro hc
      exact Except.noConfusion hc
    · rw [if_neg h]
      intro hc
      exact ObisParseError.noConfusion (Except.error.inj hc)
  · intro l1 l2 h1 h2 hfive
    unfold ObisCode.try_from_octet_str
    rw [if_pos h1, if_pos h2, hfive]

/-- Witness for C10: a length-3 sequence fails with InvalidLength, a
length-6 sequence ending in 0 succeeds, and changing only the last octet
does not change the constructed code. -/
theorem C10_octet_construction_witness :
    ObisCode.try_from_octet_str [1, 2, 3] = Except.error ObisParseError.InvalidLength ∧
    (∃ c, ObisCode.try_from_octet_str [1, 2, 3, 4, 5, 0] = Except.ok c) ∧
    ObisCode.try_from_octet_str [1, 2, 3, 4, 5, 0]
      = ObisCode.try_from_octet_str [1, 2, 3, 4, 5, 255] :=
  ⟨C10_octet_construction.1 [1, 2, 3] (by decide),
   C10_octet_construction.2.1 [1, 2, 3, 4, 5, 0] (by decide),
   C10_octet_construction.2.2.2 [1, 2, 3, 4, 5, 0] [1, 2, 3, 4, 5, 255]
     (by decide) (by decide) (by decide)⟩

/-- C5: publishing a reading and then taking it returns exactly that
reading, the take clears the slot so that an immediately following take
observes empty, and a take on an initially empty cache observes empty. -/
theorem C5_cache_consume_on_read (a : MeterReading) (slot : Option MeterReading) :
    (cache_take (cache_publish slot a)).1 = some a ∧
    (cache_take (cache_publish slot a)).2 = none ∧
    (cache_take ((cache_take (cache_publish slot a)).2)).1 = none ∧
    (cache_take (none : Option MeterReading)).1 = none :=
  ⟨rfl, rfl, rfl, rfl⟩

/-- The executable power model agrees with the mathematical integer power
of ten over the rationals. -/
theorem powi10_eq_zpow (n : Int) : powi10 n = (10 : ℚ) ^ n := by
  by_cases h : 0 ≤ n
  · rw [powi10, if_pos h, pow10]
    push_cast
    rw [← zpow_natCast, Int.toNat_of_nonneg h]
  · rw [powi10, if_neg h, pow10]
    push_cast
    rw [← zpow_natCast, Int.toNat_of_nonneg (by omega : (0 : ℤ) ≤ -n), zpow_neg, inv_inv]

/-- C1: for a record set whose total-energy entry carries a 64-bit
unsigned value raw, extraction sets the total-energy field to
raw / 10 ^ (-s) when a scale exponent s is present and to raw unchanged
when none is; on the known-good example entry raw 123456, scale -1,
unit code 30 the result is 12345.6 with unit WattHour. -/
theorem C1_total_energy_scale_convention :
    (∀ (m1 m3 : Message) (raw : Nat) (s : Int) (u : Option Nat) (t : Option SmlTime),
      (MeterReading.parse
          ⟨[m1, ⟨MessageBody.getListResponse
              [⟨[1, 0, 1, 8, 0, 255], SmlValue.u64 raw, u, some s, t⟩]⟩, m3]⟩).map
        MeterReading.meter_reading
        = Except.ok (some ((raw : ℚ) / (10 : ℚ) ^ (-s)))) ∧
    (∀ (m1 m3 : Message) (raw : Nat) (u : Option Nat) (t : Option SmlTime),
      (MeterReading.parse
          ⟨[m1, ⟨MessageBody.getListResponse
              [⟨[1, 0, 1, 8, 0, 255], SmlValue.u64 raw, u, none, t⟩]⟩, m3]⟩).map
        MeterReading.meter_reading
        = Except.ok (some (raw : ℚ))) ∧
    MeterReading.parse
        ⟨[⟨MessageBody.openResponse⟩,
          ⟨MessageBody.getListResponse
            [⟨[1, 0, 1, 8, 0, 255], SmlValue.u64 123456, some 30, some (-1), none⟩]⟩,
          ⟨MessageBody.closeResponse⟩]⟩
      = Except.ok { MeterReading.empty with
          meter_reading := some (61728 / 5 : ℚ)
          meter_reading_unit := some Unit.WattHour } := by
  refine ⟨?_, ?_, ?_⟩
  · intro m1 m3 raw s u t
    simp +decide [MeterReading.parse, parse_entry, ObisCode.try_from_octet_str,
      OBIS_TOTAL_COUNT, powi10_eq_zpow, Except.map]
  · intro m1 m3 raw u t
    simp +decide [MeterReading.parse, parse_entry, ObisCode.try_from_octet_str,
      OBIS_TOTAL_COUNT, Except.map]
  · simp +decide [MeterReading.parse, parse_entry, ObisCode.try_from_octet_str,
      OBIS_TOTAL_COUNT, MeterReading.empty, Unit.from_u8, powi10_eq_zpow]
    norm_num

/-- True exactly on the GetListResponse message body kind. -/
def MessageBody.is_get_list_response : MessageBody → Bool
  | .getListResponse _ => true
  | _ => false

/-- C4: extraction returns an error if and only if the record set does
not contain exactly three top-level messages or its second message is
not a data-list (GetListResponse) message; every record set passing the
shape check yields a Reading. -/
theorem C4_parse_error_iff_shape (f : SmlFile) :
    (MeterReading.parse f).isOk = true ↔
      (f.messages.length = 3 ∧
        (f.messages.getD 1 ⟨MessageBody.otherBody⟩).message_body.is_get_list_response = true) := by
  obtain ⟨ms⟩ := f
  match ms with
  | [] => simp [MeterReading.parse, Except.isOk, Except.toBool]
  | [a] => simp [MeterReading.parse, Except.isOk, Except.toBool]
  | [a, b] => simp [MeterReading.parse, Except.isOk, Except.toBool]
  | [a, b, c] =>
    cases hb : b.message_body <;>
      simp [MeterReading.parse, hb, MessageBody.is_get_list_response,
        Except.isOk, Except.toBool]
  | a :: b :: c :: d :: t =>
    simp [MeterReading.parse, Except.isOk, Except.toBool]

/-- A sample fully populated reading used to instantiate the store
theorems on concrete inputs. -/
def sampleReading : MeterReading :=
  { meter_time := some 7
    meter_reading := some 5
    meter_reading_unit := some Unit.WattHour
    line_one := some 1
    line_one_unit := some Unit.Watt
    line_two := some 2
    line_two_unit := some Unit.Watt
    line_three := some 3
    line_three_unit := some Unit.Watt }

/-- Inserting a reading with a present total energy under a fresh
timestamp appends exactly its bound row and reports success. -/
theorem insert_appends_of_fresh (db : DbState) (now : Int) (r : MeterReading)
    (hsome : r.meter_reading ≠ none) (hfresh : ∀ q ∈ db, q.timestamp ≠ now) :
    insert_reading db now r = (Except.ok RustUnit.unit, db ++ [bindRow now r]) := by
  have h1 : ¬ (bindRow now r).meterReading = none := hsome
  have h2 : ¬ (db.any (fun q => q.timestamp = (bindRow now r).timestamp) = true) := by
    simp only [List.any_eq_true, decide_eq_true_eq]
    rintro ⟨q, hq, he⟩
    exact hfresh q hq he
  have hstep : stepInsert db (bindRow now r) = .ok (db ++ [bindRow now r]) := by
    unfold stepInsert
    rw [if_neg h1, if_neg h2]
  unfold insert_reading
  rw [hstep]
  rfl

/-- Inserting a reading with an absent total energy is swallowed by the
code-19 catch and leaves the store unchanged while reporting success. -/
theorem insert_noop_of_none (db : DbState) (now : Int) (r : MeterReading)
    (hnone : r.meter_reading = none) :
    insert_reading db now r = (Except.ok RustUnit.unit, db) := by
  have h1 : (bindRow now r).meterReading = none := hnone
  have hstep : stepInsert db (bindRow now r) = .error ⟨some UNIQUE_CONSTRAINT_ERROR⟩ := by
    unfold stepInsert
    rw [if_pos h1]
  unfold insert_reading
  rw [hstep]
  rfl

/-- Inserting under an already-used timestamp is swallowed by the code-19
catch and leaves the store unchanged while reporting success. -/
theorem insert_noop_of_dup (db : DbState) (now : Int) (r : MeterReading)
    (hdup : ∃ q ∈ db, q.timestamp = now) :
    insert_reading db now r = (Except.ok RustUnit.unit, db) := by
  by_cases h1 : (bindRow now r).meterReading = none
  · have hstep : stepInsert db (bindRow now r) = .error ⟨some UNIQUE_CONSTRAINT_ERROR⟩ := by
      unfold stepInsert
      rw [if_pos h1]
    unfold insert_reading
    rw [hstep]
    rfl
  · have h2 : db.any (fun q => q.timestamp = (bindRow now r).timestamp) = true := by
      simp only [List.any_eq_true, decide_eq_true_eq]
      obtain ⟨q, hq, he⟩ := hdup
      exact ⟨q, hq, he⟩
    have hstep : stepInsert db (bindRow now r) = .error ⟨some UNIQUE_CONSTRAINT_ERROR⟩ := by
      unfold stepInsert
      rw [if_neg h1, if_pos h2]
    unfold insert_reading
    rw [hstep]
    rfl

/-- C2 counterexample: inserting a reading whose total_energy is absent
returns success yet appends no row, because the NOT NULL constraint on
the persisted MeterReading column rejects the bound NULL under the same
SQLite primary error code (19) as a duplicate timestamp, and the catch
swallows it.  The claim as stated says exactly one row is appended. -/
theorem C2_counterexample_absent_energy_appends_nothing :
    insert_reading [] 100 MeterReading.empty = (Except.ok RustUnit.unit, []) ∧
    MeterReading.empty.meter_reading = none := by decide

/-- C2 as amended: insert(reading) with the wall-clock seconds value now
appends exactly the bound row (meter_time, now, total_energy, line1,
line2, line3) and returns success whenever total_energy is present and
now is fresh; when total_energy is absent the insert violates the
NOT NULL column constraint, which carries the same SQLite error code as
a uniqueness violation, so the call still returns success but appends no
row. -/
theorem C2_amended_insert_semantics (db : DbState) (now : Int) (r : MeterReading) :
    (r.meter_reading ≠ none → (∀ q ∈ db, q.timestamp ≠ now) →
      insert_reading db now r = (Except.ok RustUnit.unit, db ++ [bindRow now r])) ∧
    (r.meter_reading = none →
      insert_reading db now r = (Except.ok RustUnit.unit, db)) :=
  ⟨fun hsome hfresh => insert_appends_of_fresh db now r hsome hfresh,
   fun hnone => insert_noop_of_none db now r hnone⟩

/-- Witness for C2 as amended: a populated reading on an empty store
appends its row; an empty reading appends nothing yet succeeds. -/
theorem C2_amended_insert_semantics_witness :
    insert_reading [] 100 sampleReading
      = (Except.ok RustUnit.unit, [] ++ [bindRow 100 sampleReading]) ∧
    insert_reading [] 100 MeterReading.empty = (Except.ok RustUnit.unit, []) :=
  ⟨(C2_amended_insert_semantics [] 100 sampleReading).1 (by decide) (by simp),
   (C2_amended_insert_semantics [] 100 MeterReading.empty).2 (by decide)⟩

/-- C3 counterexample: two consecutive same-second inserts of readings
without total_energy both return success, but the store ends up with
zero rows for that second, not exactly one. -/
theorem C3_counterexample_two_energyless_inserts :
    insert_reading (insert_reading [] 100 MeterReading.empty).2 100 MeterReading.empty
      = (Except.ok RustUnit.unit, []) ∧
    ((insert_reading (insert_reading [] 100 MeterReading.empty).2 100
        MeterReading.empty).2.countP (fun q => decide (q.timestamp = 100))) = 0 := by
  decide

/-- C3 as amended: for two consecutive same-second inserts, provided at
least one of the two readings carries total_energy (the NOT NULL column
value), the store ends up with exactly one row for that second and both
inserts return success; the catch in insert swallows exactly the step
errors with SQLite code 19 and propagates every other step error. -/
theorem C3_amended_same_second_dedup (db : DbState) (now : Int) (r1 r2 : MeterReading) :
    ((∀ q ∈ db, q.timestamp ≠ now) →
      (r1.meter_reading ≠ none ∨ r2.meter_reading ≠ none) →
      (insert_reading db now r1).1 = Except.ok RustUnit.unit ∧
      (insert_reading (insert_reading db now r1).2 now r2).1 = Except.ok RustUnit.unit ∧
      ((insert_reading (insert_reading db now r1).2 now r2).2.countP
        (fun q => decide (q.timestamp = now))) = 1) ∧
    (∀ e : SqliteError, e.code = some UNIQUE_CONSTRAINT_ERROR →
      handle_step db (Except.error e) = (Except.ok RustUnit.unit, db)) ∧
    (∀ e : SqliteError, e.code ≠ some UNIQUE_CONSTRAINT_ERROR →
      handle_step db (Except.error e) = (Except.error e, db)) := by
  refine ⟨?_, ?_, ?_⟩
  · intro hfresh hor
    have hcount0 : db.countP (fun q => decide (q.timestamp = now)) = 0 := by
      rw [List.countP_eq_zero]
      intro q hq
      simpa using hfresh q hq
    by_cases h1 : r1.meter_reading = none
    · have hr2 : r2.meter_reading ≠ none := by
        rcases hor with h | h
        · exact absurd h1 h
        · exact h
      rw [insert_noop_of_none db now r1 h1]
      rw [insert_appends_of_fresh db now r2 hr2 hfresh]
      refine ⟨rfl, rfl, ?_⟩
      simp [List.countP_append, hcount0, List.countP_cons, bindRow]
    · rw [insert_appends_of_fresh db now r1 h1 hfresh]
      rw [insert_noop_of_dup (db ++ [bindRow now r1]) now r2
        ⟨bindRow now r1, by simp, rfl⟩]
      refine ⟨rfl, rfl, ?_⟩
      simp [List.countP_append, hcount0, List.countP_cons, bindRow]
  · intro e he
    simp [handle_step, he]
  · intro e he
    simp [handle_step, he]

/-- Witness for C3 as amended: two same-second inserts of a populated
reading leave one row for that second; the catch keeps code 19 and
propagates code 1. -/
theorem C3_amended_same_second_dedup_witness :
    ((insert_reading (insert_reading [] 100 sampleReading).2 100 sampleReading).2.countP
      (fun q => decide (q.timestamp = 100))) = 1 ∧
    handle_step [] (Except.error ⟨some 19⟩) = (Except.ok RustUnit.unit, []) ∧
    handle_step [] (Except.error ⟨some 1⟩) = (Except.error ⟨some 1⟩, []) :=
  ⟨((C3_amended_same_second_dedup [] 100 sampleReading sampleReading).1
      (by simp) (Or.inl (by decide))).2.2,
   (C3_amended_same_second_dedup [] 100 sampleReading sampleReading).2.1
      ⟨some 19⟩ (by decide),
   (C3_amended_same_second_dedup [] 100 sampleReading sampleReading).2.2
      ⟨some 1⟩ (by decide)⟩

/-- C6: the first produced row of a read-only statement is consumed by
the execute step that reads back the column types and never appears in
the decoded result: a single-row statement over a null column and a
float column returns zero rows, and a two-row statement returns only its
second row (correctly decoded as the null cell None and the float cell
present).  The claim expects every produced row to appear. -/
theorem C6_query_drops_first_produced_row :
    query ⟨["a", "b"], [[SqlValue.null, SqlValue.float 2]]⟩
      = Except.ok ⟨["a", "b"], 0, []⟩ ∧
    query ⟨["a", "b"], [[SqlValue.null, SqlValue.float 2], [SqlValue.null, SqlValue.float 3]]⟩
      = Except.ok ⟨["a", "b"], 1, [[none, some (DbValue.F64 3)]]⟩ := by
  decide

/-- The stored row used to exhibit the list_readings column slip. -/
def sampleRow : BoundRow :=
  { meterTime := some 5
    timestamp := 100
    meterReading := some 42
    lineOne := some 1
    lineTwo := some 2
    lineThree := some 3 }

/-- C7: the row mapping of list_readings reads the wrong column indices:
on a stored row (MeterTime 5, Timestamp 100, MeterReading 42, LineOne 1,
LineTwo 2, LineThree 3) it yields total_energy 5 (the MeterTime column),
line_one 100 (the Timestamp column), line_two 42 (the MeterReading
column) and line_three 1 (the LineOne column), so the yielded fields do
not equal the row's persisted columns as the claim states. -/
theorem C7_list_readings_column_slip :
    list_readings [sampleRow]
      = [Except.ok (some
          { meter_time := some 5
            meter_reading := some 5
            meter_reading_unit := some Unit.WattHour
            line_one := some 100
            line_one_unit := some Unit.Watt
            line_two := some 42
            line_two_unit := some Unit.Watt
            line_three := some 1
            line_three_unit := some Unit.Watt })] ∧
    (rowToMeterReading (storedCells sampleRow)).map MeterReading.meter_reading
      ≠ some sampleRow.meterReading ∧
    (rowToMeterReading (storedCells sampleRow)).map MeterReading.line_one
      ≠ some sampleRow.lineOne := by
  decide

end RustyPowerMeter
